import Mathlib

/-!
Verification of the Wordware MCP server (ReActTool.py, tools.py,
wordware_api.py, wordware_mcp.py).

The Python runtime values that flow through this program are the values
obtainable from JSON decoding (the MCP host delivers arguments as JSON, and
`json.loads` produces such values), so Python values are modelled by the
`Json` type below.  Fallible Python code is modelled with `Except PyError`;
the two exception classes that can actually escape the code under study are
`AttributeError` (attribute access on a non-object, e.g. `None.get`) and
`TypeError` (bad keyword binding, `len` of a non-sized value, `+` between a
non-string and a string).

Python's `json.loads` is modelled by `json_loads` below: a standalone JSON
document parser for null / booleans / numbers / strings / arrays / objects,
plus the `NaN` / `Infinity` / `-Infinity` constants Python accepts by
default.  Integer literals become integers, as in Python; any literal with
a fraction or exponent becomes a float.  A float is carried as its exact
literal components (sign, digits, decimal scale, exponent): the scan under
study never computes with floats, it only needs that such a line parses,
whether the value is an object or a string, and — for the `output` guard —
whether it is Python-falsy, which for a finite literal is decided exactly
(the literal rounds to 0.0 iff mantissa times 2^1075 is at most 10^decimals,
the halfway point below the least subnormal double, ties to even).  String
escapes including `\uXXXX` and surrogate pairs are decoded; a lone
surrogate, which Python keeps as an unpaired code unit, is modelled as
U+0000 because Lean characters are scalar values — no claim distinguishes
the text of such strings.  Nesting, duplicate object keys (last occurrence
wins, as in Python dicts) and the requirement that the whole input be a
single document are modelled faithfully.
-/

/-- A Python float as decoded from JSON: the exact components of its
decimal literal (value = mant / 10^scale * 10^exp, negated under `neg`),
or one of the non-finite constants Python's decoder accepts.  IEEE
arithmetic is not modelled; the code under study only ever tests such a
value for truthiness, for being a dict, or for being a string. -/
inductive FloatLit where
  | finite (neg : Bool) (mant : Nat) (scale : Nat) (exp : Int)
  | inf (neg : Bool)
  | nan

/-- Does the finite decimal literal `mant / 10^scale * 10^exp` round to the
double 0.0?  Exactly when its magnitude is at most 2^-1075 — the halfway
point below the least subnormal, where ties round to the even 0 — i.e.
when mant * 2^1075 is at most 10^(scale - exp). -/
def floatLitIsZero (mant scale : Nat) (exp : Int) : Bool :=
  if mant == 0 then true
  else
    match (scale : Int) - exp with
    | .ofNat d => decide (mant * 2 ^ 1075 ≤ 10 ^ d)
    | .negSucc _ => false

/-- Python truthiness of a float: zero is falsy; infinities and `nan` are
truthy. -/
def FloatLit.truthy : FloatLit → Bool
  | .finite _ mant scale exp => !floatLitIsZero mant scale exp
  | .inf _ => true
  | .nan => true

/-- The text `str` shows for a float.  Python prints the shortest decimal
that round-trips; that formatting is not modelled, only that the text is
fixed by the value — no claim inspects it.  The non-finite spellings are
Python's own. -/
def FloatLit.text : FloatLit → String
  | .nan => "nan"
  | .inf true => "-inf"
  | .inf false => "inf"
  | .finite neg mant scale exp =>
    (if neg then "-" else "") ++ toString mant ++ "e" ++ toString (exp - scale)

/-- A Python value as obtained from JSON decoding (`json.loads`, MCP
arguments).  Object fields keep their textual order; lookup takes the last
occurrence, matching Python dict construction from duplicate keys. -/
inductive Json where
  | null
  | bool (b : Bool)
  | num (n : Int)
  | float (lit : FloatLit)
  | str (s : String)
  | arr (elems : List Json)
  | obj (fields : List (String × Json))

/-- The Python exceptions that can escape the code under study. -/
inductive PyError where
  | attributeError
  | typeError
deriving DecidableEq

/-- Python dict lookup on an association list: the last binding of a key
wins, as when a dict is built from pairs with duplicate keys. -/
def dictGet {α : Type} : List (String × α) → String → Option α
  | [], _ => none
  | kv :: rest, k =>
    match dictGet rest k with
    | some v => some v
    | none => if kv.1 = k then some kv.2 else none

/-- Python truthiness of a JSON-decoded value (`if x:`). -/
def Json.truthy : Json → Bool
  | .null => false
  | .bool b => b
  | .num n => n != 0
  | .float l => l.truthy
  | .str s => s != ""
  | .arr xs => !xs.isEmpty
  | .obj kvs => !kvs.isEmpty

/-- Python `x == "lit"` where `x` is an optional JSON-decoded value
(`dict.get` result): true exactly when `x` is that very string.  Comparing
`None` or a non-string with a string yields `False` in Python, not an
error. -/
def jsonEqStr : Option Json → String → Bool
  | some (.str s), t => s == t
  | _, _ => false

/-- Python `len` on a JSON-decoded value: defined on strings (code points),
lists and dicts; `TypeError` otherwise. -/
def pyLen : Json → Except PyError Nat
  | .str s => .ok s.length
  | .arr xs => .ok xs.length
  | .obj kvs => .ok kvs.length
  | _ => .error .typeError

/-- Is this value a Python `str`? -/
def Json.isStr : Json → Bool
  | .str _ => true
  | _ => false

/-- A single quote character, for building Python-style messages. -/
def sQuote : String := String.singleton (Char.ofNat 39)

/-- An opening brace as text. -/
def braceL : String := String.singleton (Char.ofNat 123)

/-- A closing brace as text. -/
def braceR : String := String.singleton (Char.ofNat 125)

/-- Lowercase one character, as Python `str.lower` does on ASCII text
(non-ASCII case folding is not modelled; no claim depends on it). -/
def pyLowerChar (c : Char) : Char :=
  if c.toNat ≥ 65 ∧ c.toNat ≤ 90 then Char.ofNat (c.toNat + 32) else c

/-- Python `str.lower`, character by character. -/
def pyLower (s : String) : String := String.mk (s.toList.map pyLowerChar)

/-- Does `hay` start with `pat`? -/
def listStartsWith : List Char → List Char → Bool
  | _, [] => true
  | [], _ :: _ => false
  | c :: cs, p :: ps => c == p && listStartsWith cs ps

/-- Does `hay` contain `pat` as a contiguous run?  Models Python
`pat in hay` on strings. -/
def listContainsSub : List Char → List Char → Bool
  | [], pat => pat.isEmpty
  | c :: cs, pat => listStartsWith (c :: cs) pat || listContainsSub cs pat

/-- Python `pat in hay` for strings. -/
def strContainsSub (hay pat : String) : Bool :=
  listContainsSub hay.toList pat.toList

/-- The whitespace accepted between JSON tokens (space, tab, line feed,
carriage return), by code point. -/
def isJsonWs (c : Char) : Bool :=
  c.toNat == 32 || c.toNat == 9 || c.toNat == 10 || c.toNat == 13

/-- Python whitespace for `str.strip` / `str.rstrip` and blank-line tests
(space, tab, newline, carriage return, vertical tab, form feed; Unicode
whitespace beyond these is not modelled). -/
def isPySpace (c : Char) : Bool :=
  isJsonWs c || c.toNat == 11 || c.toNat == 12

/-- Python `str.split` on a single newline, over character lists.  As in
Python, the empty string yields one empty field and every newline starts a
new field. -/
def splitOnNl : List Char → List (List Char)
  | [] => [[]]
  | c :: rest =>
    if c == '\n' then [] :: splitOnNl rest
    else
      match splitOnNl rest with
      | [] => [[c]]
      | h :: t => (c :: h) :: t

/-- Split a string into its newline-separated lines, Python
`text.split` with a newline separator. -/
def splitLines (s : String) : List String :=
  (splitOnNl s.toList).map String.mk

/-- Python `" ".join` and `"\n".join`. -/
def joinWith (sep : String) : List String → String
  | [] => ""
  | [x] => x
  | x :: y :: rest => x ++ sep ++ joinWith sep (y :: rest)

mutual
/-- Python `repr` of a JSON-decoded value, used by `str` on containers.
Strings are shown between single quotes; escape sequences inside strings
are not modelled (no claim inspects this text). -/
def pyRepr : Json → String
  | .null => "None"
  | .bool true => "True"
  | .bool false => "False"
  | .num n => toString n
  | .float l => l.text
  | .str s => sQuote ++ s ++ sQuote
  | .arr xs => "[" ++ pyReprElems xs ++ "]"
  | .obj kvs => braceL ++ pyReprFields kvs ++ braceR

def pyReprElems : List Json → String
  | [] => ""
  | [x] => pyRepr x
  | x :: y :: rest => pyRepr x ++ ", " ++ pyReprElems (y :: rest)

def pyReprFields : List (String × Json) → String
  | [] => ""
  | [kv] => sQuote ++ kv.1 ++ sQuote ++ ": " ++ pyRepr kv.2
  | kv :: kv2 :: rest => sQuote ++ kv.1 ++ sQuote ++ ": " ++ pyRepr kv.2 ++ ", " ++ pyReprFields (kv2 :: rest)
end

/-- Python `str` of a JSON-decoded value (`str.format` substitution,
`str(value)` in query building). -/
def pyStr : Json → String
  | .str s => s
  | v => pyRepr v

/-- JSON inter-token whitespace accepted by the decoder. -/
def skipWs : List Char → List Char :=
  List.dropWhile isJsonWs

/-- The JSON string escape table: the character written after the
backslash, paired with the character it denotes. -/
def escPairs : List (Char × Char) :=
  [('"', '"'), ('\\', '\\'), ('/', '/'), ('b', Char.ofNat 8), ('f', Char.ofNat 12),
   ('n', Char.ofNat 10), ('r', Char.ofNat 13), ('t', Char.ofNat 9)]

/-- Decode one single-character backslash escape inside a JSON string
literal (`\u` escapes are handled separately in `parseStrBody`). -/
def escChar (c : Char) : Option Char :=
  (escPairs.find? (fun p => p.1 == c)).map Prod.snd

/-- The value of one hexadecimal digit, either case. -/
def hexVal (c : Char) : Option Nat :=
  if 48 ≤ c.toNat ∧ c.toNat ≤ 57 then some (c.toNat - 48)
  else if 97 ≤ c.toNat ∧ c.toNat ≤ 102 then some (c.toNat - 87)
  else if 65 ≤ c.toNat ∧ c.toNat ≤ 70 then some (c.toNat - 55)
  else none

/-- The four hexadecimal digits of a `\u` escape, as a code value. -/
def hexQuad (a b c d : Char) : Option Nat :=
  match hexVal a, hexVal b, hexVal c, hexVal d with
  | some x, some y, some z, some w => some (((x * 16 + y) * 16 + z) * 16 + w)
  | _, _, _, _ => none

/-- Scan the body of a JSON string literal after its opening quote: returns
the decoded characters and the input after the closing quote.  Raw control
characters are rejected, as in Python's strict decoder.  A `\u` escape is
decoded, joining a high surrogate with a following low-surrogate escape
into one character as Python does; a lone surrogate — which Python keeps
as an unpaired code unit — becomes U+0000, the fallback of `Char.ofNat`
for a non-scalar code, since no claim inspects such text. -/
def parseStrBody : List Char → Option (List Char × List Char)
  | [] => none
  | c :: rest =>
    if c == '"' then some ([], rest)
    else if c == '\\' then
      match rest with
      | [] => none
      | e :: rest2 =>
        if e == 'u' then
          match rest2 with
          | a :: b :: c1 :: d1 :: rest3 =>
            match hexQuad a b c1 d1 with
            | none => none
            | some u =>
              if 55296 ≤ u ∧ u ≤ 56319 then
                match rest3 with
                | s1 :: s2 :: a2 :: b2 :: c2 :: d2 :: rest4 =>
                  if s1 == '\\' && s2 == 'u' then
                    match hexQuad a2 b2 c2 d2 with
                    | some v =>
                      if 56320 ≤ v ∧ v ≤ 57343 then
                        match parseStrBody rest4 with
                        | none => none
                        | some (cs, rem) =>
                          some (Char.ofNat (65536 + (u - 55296) * 1024 + (v - 56320)) :: cs, rem)
                      else
                        match parseStrBody (s1 :: s2 :: a2 :: b2 :: c2 :: d2 :: rest4) with
                        | none => none
                        | some (cs, rem) => some (Char.ofNat u :: cs, rem)
                    | none =>
                      match parseStrBody (s1 :: s2 :: a2 :: b2 :: c2 :: d2 :: rest4) with
                      | none => none
                      | some (cs, rem) => some (Char.ofNat u :: cs, rem)
                  else
                    match parseStrBody (s1 :: s2 :: a2 :: b2 :: c2 :: d2 :: rest4) with
                    | none => none
                    | some (cs, rem) => some (Char.ofNat u :: cs, rem)
                | r3 =>
                  match parseStrBody r3 with
                  | none => none
                  | some (cs, rem) => some (Char.ofNat u :: cs, rem)
              else
                match parseStrBody rest3 with
                | none => none
                | some (cs, rem) => some (Char.ofNat u :: cs, rem)
          | _ => none
        else
          match escChar e with
          | none => none
          | some d =>
            match parseStrBody rest2 with
            | none => none
            | some (cs, rem) => some (d :: cs, rem)
    else if c.toNat < 32 then none
    else
      match parseStrBody rest with
      | none => none
      | some (cs, rem) => some (c :: cs, rem)

/-- The numeric value of a decimal digit, if `c` is one. -/
def digitVal (c : Char) : Option Nat :=
  if 48 ≤ c.toNat ∧ c.toNat ≤ 57 then some (c.toNat - 48) else none

/-- Split a leading run of decimal digits off the input. -/
def takeDigits : List Char → List Nat × List Char
  | [] => ([], [])
  | c :: rest =>
    match digitVal c with
    | none => ([], c :: rest)
    | some d =>
      let (ds, rem) := takeDigits rest
      (d :: ds, rem)

/-- Assemble decimal digits into a natural number. -/
def digitsToNat (ds : List Nat) : Nat := ds.foldl (fun acc d => acc * 10 + d) 0

/-- Decode a JSON number (optional minus, integer part without leading
zeros, optional fraction, optional exponent), or one of the `NaN` /
`Infinity` / `-Infinity` constants Python's decoder accepts by default.
A literal with neither fraction nor exponent is an integer, as in Python;
otherwise the value is a float carried as its literal components. -/
def parseNum (cs : List Char) : Option (Json × List Char) :=
  if listStartsWith cs ['N', 'a', 'N'] then some (.float .nan, cs.drop 3)
  else if listStartsWith cs ['I', 'n', 'f', 'i', 'n', 'i', 't', 'y'] then
    some (.float (.inf false), cs.drop 8)
  else if listStartsWith cs ['-', 'I', 'n', 'f', 'i', 'n', 'i', 't', 'y'] then
    some (.float (.inf true), cs.drop 9)
  else
    let (neg, cs1) : Bool × List Char :=
      match cs with
      | c :: rest => if c == '-' then (true, rest) else (false, cs)
      | [] => (false, [])
    match takeDigits cs1 with
    | ([], _) => none
    | (d :: ds, rem) =>
      if d == 0 ∧ ds ≠ [] then none
      else
        let fracPart : Option (List Nat × List Char) :=
          match rem with
          | c :: rem2 =>
            if c == '.' then
              match takeDigits rem2 with
              | ([], _) => none
              | (f :: fs, rem3) => some (f :: fs, rem3)
            else some ([], rem)
          | [] => some ([], [])
        match fracPart with
        | none => none
        | some (frac, rem4) =>
          let expPart : Option (Option Int × List Char) :=
            match rem4 with
            | c :: rem5 =>
              if c == 'e' || c == 'E' then
                let (eneg, rem6) : Bool × List Char :=
                  match rem5 with
                  | e :: rem6 =>
                    if e == '-' then (true, rem6)
                    else if e == '+' then (false, rem6)
                    else (false, rem5)
                  | [] => (false, [])
                match takeDigits rem6 with
                | ([], _) => none
                | (g :: gs, rem7) =>
                  let m : Int := digitsToNat (g :: gs)
                  some (some (if eneg then -m else m), rem7)
              else some (none, rem4)
            | [] => some (none, [])
          match expPart with
          | none => none
          | some (exp, rem8) =>
            match frac, exp with
            | [], none =>
              let n : Int := digitsToNat (d :: ds)
              some (.num (if neg then -n else n), rem8)
            | _, _ =>
              some (.float (.finite neg (digitsToNat ((d :: ds) ++ frac))
                frac.length (exp.getD 0)), rem8)

mutual
/-- Decode one JSON value from the front of the input, returning it and the
rest of the input.  `fuel` bounds the nesting depth; every recursive call
happens strictly after at least one character was consumed, so a fuel of
input length + 1 never runs out. -/
def parseValue : Nat → List Char → Option (Json × List Char)
  | 0, _ => none
  | fuel + 1, cs =>
    match skipWs cs with
    | [] => none
    | c :: rest =>
      if c == 'n' then
        if listStartsWith rest (String.toList "ull") then some (.null, rest.drop 3) else none
      else if c == 't' then
        if listStartsWith rest (String.toList "rue") then some (.bool true, rest.drop 3) else none
      else if c == 'f' then
        if listStartsWith rest (String.toList "alse") then some (.bool false, rest.drop 4) else none
      else if c == '"' then
        match parseStrBody rest with
        | some (body, rem) => some (.str (String.mk body), rem)
        | none => none
      else if c == '[' then
        match skipWs rest with
        | d :: r2 => if d == ']' then some (.arr [], r2) else parseElems fuel (d :: r2) []
        | [] => none
      else if c == Char.ofNat 123 then
        match skipWs rest with
        | d :: r2 => if d == Char.ofNat 125 then some (.obj [], r2) else parseFields fuel (d :: r2) []
        | [] => none
      else parseNum (c :: rest)

/-- Decode the comma-separated elements of a nonempty JSON array, up to and
including the closing bracket. -/
def parseElems : Nat → List Char → List Json → Option (Json × List Char)
  | 0, _, _ => none
  | fuel + 1, cs, acc =>
    match parseValue fuel cs with
    | none => none
    | some (v, rem) =>
      match skipWs rem with
      | c :: r =>
        if c == ',' then parseElems fuel r (v :: acc)
        else if c == ']' then some (.arr (v :: acc).reverse, r)
        else none
      | [] => none

/-- Decode the `"key": value` fields of a nonempty JSON object, up to and
including the closing brace. -/
def parseFields : Nat → List Char → List (String × Json) → Option (Json × List Char)
  | 0, _, _ => none
  | fuel + 1, cs, acc =>
    match skipWs cs with
    | c :: rest =>
      if c == '"' then
        match parseStrBody rest with
        | none => none
        | some (k, rem) =>
          match skipWs rem with
          | d :: r2 =>
            if d == ':' then
              match parseValue fuel r2 with
              | none => none
              | some (v, rem2) =>
                match skipWs rem2 with
                | e :: r3 =>
                  if e == ',' then parseFields fuel r3 ((String.mk k, v) :: acc)
                  else if e == Char.ofNat 125 then some (.obj ((String.mk k, v) :: acc).reverse, r3)
                  else none
                | [] => none
            else none
          | [] => none
      else none
    | [] => none
end

/-- Modelled from Python's `json` library: `json.loads` on one line of the
streaming response.  The whole input must be a single JSON document,
optionally surrounded by whitespace; `none` models `json.JSONDecodeError`. -/
def json_loads (s : String) : Option Json :=
  match parseValue (s.toList.length + 1) s.toList with
  | some (v, rem) => if (skipWs rem).isEmpty then some v else none
  | none => none

/-- What scanning one line of the streaming response does: the line is
skipped, or its `output` payload is found, or attribute access on a
non-object raises. -/
inductive LineStep where
  | skip
  | found (out : Json)
  | fault (e : PyError)

/-- Is this line skipped by the scan? -/
def LineStep.isSkip : LineStep → Bool
  | .skip => true
  | _ => false

/-- One iteration of the scan loop shared by `process_response`
(ReActTool.py lines 111-123) and `_process_streaming_response`
(wordware_api.py lines 35-45, wordware_mcp.py lines 59-68) on one line:
`if line.strip():`, `json.loads` with `JSONDecodeError` skipped, then the
three-way guard `chunk.get("type") == "chunk" and chunk.get("value",
{}).get("type") == "code" and chunk.get("value", {}).get("output")`.
Attribute access `.get` on a value that is not a dict raises
`AttributeError`, which the loop does not catch. -/
def processLine (line : String) : LineStep :=
  if line.toList.all isPySpace then .skip
  else
    match json_loads line with
    | none => .skip
    | some chunk =>
      match chunk with
      | .obj kvs =>
        if jsonEqStr (dictGet kvs "type") "chunk" then
          match (dictGet kvs "value").getD (.obj []) with
          | .obj vkvs =>
            if jsonEqStr (dictGet vkvs "type") "code" then
              match dictGet vkvs "output" with
              | some out => if out.truthy then .found out else .skip
              | none => .skip
            else .skip
          | _ => .fault .attributeError
        else .skip
      | _ => .fault .attributeError

/-- The scan loop over the split lines, returning `sentinel` when every
line is skipped; the first found payload wins. -/
def scanLines (sentinel : String) : List String → Except PyError Json
  | [] => .ok (.str sentinel)
  | l :: ls =>
    match processLine l with
    | .skip => scanLines sentinel ls
    | .found out => .ok out
    | .fault e => .error e

namespace ReActTool

/-- `DynamicWordwareTool.process_response` (ReActTool.py lines 104-124):
split the response on newlines and scan for the first qualifying chunk
line; the sentinel is `"No output found"`. -/
def process_response (response_text : String) : Except PyError Json :=
  scanLines "No output found" (splitLines response_text)

end ReActTool

namespace WordwareMCP

/-- `WordwareAPI._process_streaming_response` (wordware_mcp.py lines 57-69
and wordware_api.py lines 26-46): the same scan with the sentinel
`"No Notion page URL found in response"`. -/
def process_streaming_response (response_text : String) : Except PyError Json :=
  scanLines "No Notion page URL found in response" (splitLines response_text)

end WordwareMCP


/-- One piece of a Python format string: literal text or a placeholder
`...key...` written with braces around the key.  A format string is
modelled by its parsed segment sequence, which is exactly how Python's
`str.format` consumes it. -/
inductive Seg where
  | lit (s : String)
  | hole (k : String)

/-- A payload template value (tools.py): a Python string / dict / list, or
any other value, with format strings as parsed segments. -/
inductive Template where
  | str (segs : List Seg)
  | dict (kvs : List (String × Template))
  | list (items : List Template)
  | other (j : Json)

/-- The literal text of one segment: a placeholder reads back as the key
between braces. -/
def segText : Seg → String
  | .lit s => s
  | .hole k => braceL ++ k ++ braceR

/-- The literal text of a format string, unrendered. -/
def textOfSegs (segs : List Seg) : String := String.join (segs.map segText)

/-- The placeholder keys of a format string, in order. -/
def segKeys (segs : List Seg) : List String :=
  segs.filterMap (fun s =>
    match s with
    | .hole k => some k
    | .lit _ => none)

/-- Substitute one segment: a placeholder becomes the string form of the
context value (Python `format(value, "")`, which is `str(value)`). -/
def renderStrSeg (ctx : List (String × Json)) (s : Seg) : String :=
  match s with
  | .lit t => t
  | .hole k => pyStr ((dictGet ctx k).getD .null)

/-- ReActTool.py lines 30-35: `template.format(**context)` with `KeyError`
caught.  Python's `format` raises `KeyError` at the first placeholder whose
key is missing, in which case the handler returns the original template
text unchanged; when every key is present all placeholders are
substituted. -/
def render_str (segs : List Seg) (ctx : List (String × Json)) : String :=
  if (segKeys segs).all (fun k => (dictGet ctx k).isSome) then
    String.join (segs.map (renderStrSeg ctx))
  else textOfSegs segs

mutual
/-- `render_template` (ReActTool.py lines 25-41): recursively renders a
template using `str.format`; dicts render per value preserving keys, lists
render per element preserving order, any other value passes through. -/
def render_template : Template → List (String × Json) → Json
  | .str segs, ctx => .str (render_str segs ctx)
  | .dict kvs, ctx => .obj (renderFields kvs ctx)
  | .list items, ctx => .arr (renderItems items ctx)
  | .other j, _ => j

/-- The dict comprehension in `render_template`: render each value. -/
def renderFields : List (String × Template) → List (String × Json) → List (String × Json)
  | [], _ => []
  | (k, v) :: rest, ctx => (k, render_template v ctx) :: renderFields rest ctx

/-- The list comprehension in `render_template`: render each element. -/
def renderItems : List Template → List (String × Json) → List Json
  | [], _ => []
  | t :: rest, ctx => render_template t ctx :: renderItems rest ctx
end

mutual
/-- All placeholder keys occurring anywhere in a template. -/
def placeholders : Template → List String
  | .str segs => segKeys segs
  | .dict kvs => placeholdersFields kvs
  | .list items => placeholdersItems items
  | .other _ => []

def placeholdersFields : List (String × Template) → List String
  | [] => []
  | (_, v) :: rest => placeholders v ++ placeholdersFields rest

def placeholdersItems : List Template → List String
  | [] => []
  | t :: rest => placeholders t ++ placeholdersItems rest
end

mutual
/-- Stated from the spec's words, for comparison with `render_template`:
every placeholder is replaced by the string form of the matching context
value, mapping keys, sequence order and nesting are preserved, and
non-string leaves pass through unchanged. -/
def renderSpecModel : Template → List (String × Json) → Json
  | .str segs, ctx => .str (String.join (segs.map (renderStrSeg ctx)))
  | .dict kvs, ctx => .obj (renderSpecFields kvs ctx)
  | .list items, ctx => .arr (renderSpecItems items ctx)
  | .other j, _ => j

def renderSpecFields : List (String × Template) → List (String × Json) → List (String × Json)
  | [], _ => []
  | (k, v) :: rest, ctx => (k, renderSpecModel v ctx) :: renderSpecFields rest ctx

def renderSpecItems : List Template → List (String × Json) → List Json
  | [], _ => []
  | t :: rest, ctx => renderSpecModel t ctx :: renderSpecItems rest ctx
end

/-- A tool registry entry (tools.py TOOL_CONFIG, read by
`DynamicWordwareTool.__init__`; the `async` config key is stored as
`use_async`). -/
structure ToolConfig where
  description : String
  payload_template : Template
  api_url : String
  use_async : Bool

/-- The `notion_page` entry of tools.py `TOOL_CONFIG`. -/
def notionConfig : ToolConfig :=
  { description := "Creates a Notion page using the Wordware API",
    payload_template := .dict [
      ("inputs", .dict [("title", .str [.hole "title"]), ("body", .str [.hole "body"])]),
      ("version", .str [.lit "^1.0"])],
    api_url := "https://app.wordware.ai/api/released-app/aaa61129-de55-49a7-b6cc-e9a7b184cd96/run",
    use_async := true }

/-- The `google_search` entry of tools.py `TOOL_CONFIG`. -/
def googleSearchConfig : ToolConfig :=
  { description := "Searches Google using a Wordware-powered tool",
    payload_template := .dict [
      ("inputs", .dict [("query", .str [.hole "query"])]),
      ("version", .str [.lit "^1.0"])],
    api_url := "https://app.wordware.ai/api/released-app/6e7817c6-5f67-4905-ab5b-18f28c333637/run",
    use_async := true }

/-- The `wikipedia_lookup` entry of tools.py `TOOL_CONFIG`. -/
def wikipediaConfig : ToolConfig :=
  { description := "Fetches information from Wikipedia based on a term",
    payload_template := .dict [
      ("inputs", .dict [("term", .str [.hole "term"])]),
      ("version", .str [.lit "^1.0"])],
    api_url := "https://app.wordware.ai/api/released-app/4d4b0a16-d62b-4ec2-a43d-ac8c1ee18de8/run",
    use_async := true }

/-- The `google_news` entry of tools.py `TOOL_CONFIG`. -/
def googleNewsConfig : ToolConfig :=
  { description := "Gets the latest news using Google News",
    payload_template := .dict [
      ("inputs", .dict [("news", .str [.hole "news"])]),
      ("version", .str [.lit "^1.0"])],
    api_url := "https://app.wordware.ai/api/released-app/8e468bc7-f612-4e0b-a2c5-4451c03e16c1/run",
    use_async := true }

/-- tools.py `TOOL_CONFIG`, in source order. -/
def TOOL_CONFIG : List (String × ToolConfig) :=
  [("notion_page", notionConfig),
   ("google_search", googleSearchConfig),
   ("wikipedia_lookup", wikipediaConfig),
   ("google_news", googleNewsConfig)]

/-- ReActTool.py lines 162-165: one `DynamicWordwareTool` per registry
entry, under the same name.  The instances add only headers derived from
the API key, which no claim touches, so the registry keeps the configs. -/
def dynamic_tools : List (String × ToolConfig) := TOOL_CONFIG

/-- The outcome of one HTTP POST, supplied by the network environment. -/
inductive HttpOutcome where
  | transportError (msg : String)
  | response (status : Nat) (text : String)

/-- A record of one outgoing HTTP POST (observable side effect). -/
structure NetCall where
  url : String
  payload : Json

/-- The network environment: what the POST of a payload to a URL does. -/
def Net : Type := String → Json → HttpOutcome

/-- The text a caught exception contributes to an f-string (`str(e)`).
Python's exact message wording is not modelled, only that it is some text
fixed by the exception class; no claim inspects it. -/
def pyErrText : PyError → String
  | .attributeError => "AttributeError"
  | .typeError => "TypeError"

namespace ReActTool

/-- `DynamicWordwareTool.call_api` (ReActTool.py lines 76-102): POST the
payload, and inside one `try`: non-200 becomes an error string with status
and body; 200 goes through `process_response`; any exception (transport
failure, or the `AttributeError` a bad line raises in
`process_response`) is caught and becomes an `"API call failed with
error: ..."` string.  The call itself is recorded as a side effect. -/
def call_api (net : Net) (api_url : String) (payload : Json) : Json × List NetCall :=
  let result : Json :=
    match net api_url payload with
    | .transportError msg => .str ("API call failed with error: " ++ msg)
    | .response status text =>
      if status != 200 then
        .str ("API call failed with status " ++ toString status ++ ": " ++ text)
      else
        match process_response text with
        | .ok out => out
        | .error e => .str ("API call failed with error: " ++ pyErrText e)
  (result, [{ url := api_url, payload := payload }])

/-- `DynamicWordwareTool.run` with `render_payload` (ReActTool.py lines
66-74 and 126-137): render the payload template over the keyword
arguments, then `call_api`.  Rendering is total (`render_template` catches
the only error it can raise) and `call_api` returns a value for every
outcome, so the surrounding `try`/`except` blocks never fire. -/
def tool_run (net : Net) (cfg : ToolConfig) (kwargs : List (String × Json)) : Json × List NetCall :=
  call_api net cfg.api_url (render_template cfg.payload_template kwargs)

/-- `react_agent` (ReActTool.py lines 173-206).  The decision
`"multi-step" in user_command.lower() or len(body) > 100` short-circuits,
so `len(body)` — a `TypeError` on a value that is not a string, list or
dict — is only evaluated when the command lacks the keyword.  On the
refinement branch `(initial_result or "") + " [Finalized after multi-step
processing]"` concatenates, a `TypeError` when a truthy `initial_result`
is not text.  `title` is unused by the source.  The printed thoughts and
pauses have no effect on the result. -/
def react_agent (user_command : String) (title body : Json) (initial_result : Json) :
    Except PyError Json :=
  let _ := title
  let refine : Except PyError Json :=
    match (if initial_result.truthy then initial_result else .str "") with
    | .str s => .ok (.str (s ++ " [Finalized after multi-step processing]"))
    | _ => .error .typeError
  if strContainsSub (pyLower user_command) "multi-step" then refine
  else
    match pyLen body with
    | .error e => .error e
    | .ok n =>
      if n > 100 then refine
      else .ok (if initial_result.truthy then initial_result else .str "No result from tool.")

/-- The argument-normalization block of `handle_user_request` (ReActTool.py
lines 240-263).  Search tools join the string forms of all truthy values
into `query`; the news tool does the same into `news`, skipping the
`user_command`/`tool` keys; `notion_page` reads `title` and `body` from
the nested `inputs` value via `inputs.get("inputs").get(...)`, which
raises `AttributeError` when the `inputs` key is absent (`None.get`) or its
value is not a dict; anything else passes through. -/
def process_inputs (tool : String) (inputs : List (String × Json)) :
    Except PyError (List (String × Json)) :=
  if tool == "google_search" || tool == "wikipedia_lookup" then
    .ok [("query", .str (joinWith " "
      (inputs.filterMap (fun kv => if kv.2.truthy then some (pyStr kv.2) else none))))]
  else if tool == "google_news" then
    .ok [("news", .str (joinWith " "
      (inputs.filterMap (fun kv =>
        if kv.2.truthy && !(kv.1 == "user_command" || kv.1 == "tool")
        then some (pyStr kv.2) else none))))]
  else if tool == "notion_page" then
    match dictGet inputs "inputs" with
    | some (.obj m) =>
      .ok [("title", (dictGet m "title").getD (.str "example title")),
           ("body", (dictGet m "body").getD (.str "example body"))]
    | some _ => .error .attributeError
    | none => .error .attributeError
  else .ok inputs

/-- Binding `react_agent(user_command, **processed_inputs,
initial_result=initial_result)` (ReActTool.py line 274): the keyword dict
must supply `title` and `body` and nothing else, otherwise Python raises
`TypeError` (missing or unexpected keyword argument) at the call. -/
def bindReactKwargs (processed : List (String × Json)) : Option (Json × Json) :=
  match dictGet processed "title", dictGet processed "body" with
  | some t, some b =>
    if processed.all (fun kv => kv.1 == "title" || kv.1 == "body") then some (t, b) else none
  | _, _ => none

/-- The fixed reply for a tool name outside the registry (ReActTool.py
line 236). -/
def tool_not_available_msg (tool : String) : String :=
  "Tool " ++ sQuote ++ tool ++ sQuote ++ " not available."

/-- `handle_user_request` (ReActTool.py lines 208-278): registry check,
argument normalization, synchronous tool run, and — when the lowercased
command contains `"multi-step"` — delegation to `react_agent`.  The result
is the returned value or the propagated exception, paired with the network
calls performed. -/
def handle_user_request (net : Net) (user_command tool : String)
    (inputs : List (String × Json)) : Except PyError Json × List NetCall :=
  match dictGet dynamic_tools tool with
  | none => (.ok (.str (tool_not_available_msg tool)), [])
  | some cfg =>
    match process_inputs tool inputs with
    | .error e => (.error e, [])
    | .ok processed =>
      let (initial_result, calls) := tool_run net cfg processed
      if strContainsSub (pyLower user_command) "multi-step" then
        match bindReactKwargs processed with
        | none => (.error .typeError, calls)
        | some (t, b) =>
          match react_agent user_command t b initial_result with
          | .ok final => (.ok final, calls)
          | .error e => (.error e, calls)
      else (.ok initial_result, calls)

end ReActTool

/-- Job lifecycle states (the `status` strings of the job records). -/
inductive JobStatus where
  | pending
  | processing
  | complete
  | error
deriving DecidableEq

/-- One job record of the in-memory store: `{"status": ..., "result":
None, "error": None}` with the two optional fields. -/
structure Job where
  status : JobStatus
  result : Option String := none
  error : Option String := none

/-- How the background unit settles: the awaited request produces a result
string, or an exception with some message reaches the `except` block. -/
inductive JobOutcome where
  | success (r : String)
  | failure (msg : String)

namespace ReActTool

/-- The successive states of one job record, in program order:
`run_async` stores `{"status": "pending", "result": None, "error": None}`
(line 145), then `_background_run` (lines 149-159) sets `status =
"processing"`, and on success sets `status = "complete"` then `result`,
or in the `except` block sets `status = "error"` then `error`.  Each list
entry is the record after one store mutation; the job is written by no one
else. -/
def background_run_states (oc : JobOutcome) : List Job :=
  match oc with
  | .success r =>
    [{ status := .pending }, { status := .processing },
     { status := .complete }, { status := .complete, result := some r }]
  | .failure m =>
    [{ status := .pending }, { status := .processing },
     { status := .error }, { status := .error, error := some m }]

end ReActTool

namespace WordwareMCP

/-- The successive states of one job record for
`create_notion_page_async` / `background_create_page` (wordware_mcp.py
lines 139-147 and 156-158): the same store discipline as
`ReActTool._background_run`, with `make_request` as the awaited work. -/
def background_create_page_states (oc : JobOutcome) : List Job :=
  match oc with
  | .success r =>
    [{ status := .pending }, { status := .processing },
     { status := .complete }, { status := .complete, result := some r }]
  | .failure m =>
    [{ status := .pending }, { status := .processing },
     { status := .error }, { status := .error, error := some m }]

end WordwareMCP

/-- Is this status terminal? -/
def JobStatus.settled : JobStatus → Bool
  | .complete => true
  | .error => true
  | _ => false

/-- The legal status transitions of the claimed invariant: stay put, or
move pending → processing → one of the terminal states.  In particular a
settled job never reverts. -/
def legalStep (a b : JobStatus) : Bool :=
  a == b ||
  (a == .pending && b == .processing) ||
  (a == .processing && (b == .complete || b == .error))

/-- Every adjacent pair of states is a legal transition. -/
def statusMonotone : List Job → Bool
  | [] => true
  | [_] => true
  | a :: b :: rest => legalStep a.status b.status && statusMonotone (b :: rest)

/-- Field discipline of one job record: `result` only when complete,
`error` only when errored, never both. -/
def jobFieldsOk (j : Job) : Bool :=
  (j.result.isNone || j.status == .complete) &&
  (j.error.isNone || j.status == .error) &&
  !(j.result.isSome && j.error.isSome)

namespace WordwareMCP

/-- The character class removed from titles by
`re.sub` in `_clean_title` (wordware_mcp.py line 35). -/
def specialChars : List Char := ['<', '>', ':', '"', '/', '\\', '|', '?', '*']

/-- Python `str.strip` with no arguments: surrounding whitespace removed. -/
def pyStrip (s : String) : String :=
  String.mk ((s.toList.dropWhile isPySpace).reverse.dropWhile isPySpace).reverse

/-- Python `str.rstrip` over a line's characters. -/
def pyRstripList (l : List Char) : List Char := (l.reverse.dropWhile isPySpace).reverse

/-- `WordwareAPI._clean_title` (wordware_mcp.py lines 31-37): empty titles
fall back to `"Untitled"`; otherwise the special characters are removed,
the result is stripped, and either the first 100 characters are kept or,
when stripping left nothing, the fallback is used. -/
def clean_title (title : String) : String :=
  if title == "" then "Untitled"
  else
    let stripped := pyStrip (String.mk (title.toList.filter (fun c => !specialChars.contains c)))
    if stripped == "" then "Untitled"
    else String.mk (stripped.toList.take 100)

/-- `WordwareAPI._clean_body` (wordware_mcp.py lines 39-45): empty bodies
stay empty; otherwise split on newlines, right-strip each line, keep only
lines that are nonempty after stripping, and rejoin with newlines. -/
def clean_body (body : String) : String :=
  if body == "" then ""
  else
    let cleaned := ((splitOnNl body.toList).map pyRstripList).filter (fun l => !l.isEmpty)
    joinWith "\n" (cleaned.map String.mk)

/-- `WordwareAPI._validate_and_clean_input` (wordware_mcp.py lines 47-55). -/
def validate_and_clean_input (title body : String) : String × String :=
  (clean_title title, clean_body body)

/-- The payload built by `WordwareAPI.make_request` (wordware_mcp.py lines
71-80) before the POST: cleaned title and body under `inputs`, plus the
version string. -/
def make_request_payload (title body version : String) : Json :=
  let cleaned := validate_and_clean_input title body
  .obj [("inputs", .obj [("title", .str cleaned.1), ("body", .str cleaned.2)]),
        ("version", .str version)]

/-- Stated from the claim's words: the caller's title with the characters
`< > : " / \ | ? *` removed, stripped of surrounding whitespace, truncated
to at most 100 characters, falling back to `"Untitled"` when the title is
empty or becomes empty after cleaning. -/
def titleSpec (title : String) : String :=
  let cleaned := pyStrip (String.mk (title.toList.filter (fun c => !specialChars.contains c)))
  if title == "" || cleaned == "" then "Untitled"
  else String.mk (cleaned.toList.take 100)

/-- Stated from the claim's words: the caller's body with trailing
whitespace stripped from each line and blank lines removed. -/
def bodySpec (body : String) : String :=
  joinWith "\n"
    (((splitLines body).map (fun l => String.mk (pyRstripList l.toList))).filter (fun l => !(l == "")))

end WordwareMCP

/-- A network environment whose every response is status 200 with an empty
body. -/
def netOk200 : Net := fun _ _ => .response 200 ""

/-- A network environment whose every response is status 500 with body
`"boom"`; through `call_api` it always yields an error string. -/
def netDown : Net := fun _ _ => .response 500 "boom"

/-- The network environment yields only text through `call_api`: the shape
of initial result the dispatch path needs.  It holds of every environment
that never answers 200, and of every environment whose 200 bodies carry
text outputs. -/
def netTextOnly (net : Net) : Prop :=
  ∀ url payload, ((ReActTool.call_api net url payload).1).isStr = true

/-- The JSON object decoded from one qualifying chunk line with output
`x`. -/
def chunkJson (x : String) : Json :=
  .obj [("type", .str "chunk"),
        ("value", .obj [("type", .str "code"), ("output", .str x)])]

/-- The text of a qualifying chunk line with output `"X"`. -/
def chunkLineX : String :=
  "\x7b\"type\": \"chunk\", \"value\": \x7b\"type\": \"code\", \"output\": \"X\"\x7d\x7d"

/-- The text of a qualifying chunk line with output `"Y"`. -/
def chunkLineY : String :=
  "\x7b\"type\": \"chunk\", \"value\": \x7b\"type\": \"code\", \"output\": \"Y\"\x7d\x7d"

/-- Python `None` or a string, the values the optional `initial_result`
parameter of `react_agent` takes when called as annotated. -/
def jsonOfOpt : Option String → Json
  | none => .null
  | some s => .str s

/-- A demonstration template: the notion_page payload template from
tools.py. -/
def demoTemplate : Template :=
  .dict [("inputs", .dict [("title", .str [.hole "title"]), ("body", .str [.hole "body"])]),
         ("version", .str [.lit "^1.0"])]

/-- A demonstration context supplying both of its placeholders. -/
def demoCtx : List (String × Json) := [("title", .str "My Title"), ("body", .str "My Body")]

/-- When every line of the list is skipped, the scan falls through to the
sentinel. -/
theorem scanLines_all_skip (sentinel : String) (ls : List String)
    (h : ls.all (fun l => (processLine l).isSkip) = true) :
    scanLines sentinel ls = .ok (.str sentinel) := by
  induction ls with
  | nil => rfl
  | cons l ls ih =>
    simp only [List.all_cons, Bool.and_eq_true] at h
    have hskip : processLine l = .skip := by
      cases hl : processLine l <;> simp [hl, LineStep.isSkip] at h ⊢
    simp [scanLines, hskip, ih h.2]

/-- C4 (amended): for every response body each of whose lines is skipped
by the scan — blank, not decodable as JSON, or decoding to a JSON object
that does not qualify and whose attribute accesses stay on objects — the
extractor returns the sentinel `"No output found"` without a fault.
(As stated the claim fails: a line decoding to non-object JSON, or to an
object with `"type": "chunk"` and a non-object `"value"`, raises
`AttributeError`, see the counterexample.) -/
theorem claim_C4_extract_sentinel (text : String)
    (h : (splitLines text).all (fun l => (processLine l).isSkip) = true) :
    ReActTool.process_response text = .ok (.str "No output found") :=
  scanLines_all_skip "No output found" (splitLines text) h

/-- C4 witness: a body of one undecodable line and one decodable but
non-qualifying object line yields the sentinel. -/
theorem claim_C4_extract_sentinel_witness :
    ((splitLines "hello\n\x7b\"type\": \"done\"\x7d").all
      (fun l => (processLine l).isSkip) = true) ∧
    ReActTool.process_response "hello\n\x7b\"type\": \"done\"\x7d" =
      .ok (.str "No output found") :=
  ⟨rfl, claim_C4_extract_sentinel "hello\n\x7b\"type\": \"done\"\x7d" rfl⟩

/-- C4 counterexample: the bodies `"5"` and `"1.5"` have zero qualifying
lines, yet the extractor raises `AttributeError` (`json.loads` yields the
number, and `.get(...)` on a number is an attribute error) instead of
returning the sentinel. -/
theorem claim_C4_counterexample :
    ReActTool.process_response "5" = .error .attributeError ∧
    ReActTool.process_response "1.5" = .error .attributeError := ⟨rfl, rfl⟩

/-- C9: dispatch with a tool name outside the registry returns the plain
tool-not-available message, performs no network call, and leaves no other
trace. -/
theorem claim_C9_unknown_tool (net : Net) (user_command tool : String)
    (inputs : List (String × Json)) (h : dictGet dynamic_tools tool = none) :
    ReActTool.handle_user_request net user_command tool inputs =
      (.ok (.str (ReActTool.tool_not_available_msg tool)), []) := by
  simp [ReActTool.handle_user_request, h]

/-- C9 witness: the name `nonexistent_tool` is not in the registry and is
rejected with the fixed message and an empty call trace. -/
theorem claim_C9_unknown_tool_witness :
    dictGet dynamic_tools "nonexistent_tool" = none ∧
    ReActTool.handle_user_request netOk200 "do something" "nonexistent_tool" [] =
      (.ok (.str (ReActTool.tool_not_available_msg "nonexistent_tool")), []) :=
  ⟨rfl, claim_C9_unknown_tool netOk200 "do something" "nonexistent_tool" [] rfl⟩

/-- C6: along the state sequence of one asynchronous job — for both
`ReActTool._background_run` and wordware_mcp's `background_create_page` —
every transition is pending → processing → complete/error or stationary
(so a settled job never reverts), `result` is only ever set on a complete
job, `error` only on an errored job, and never both. -/
theorem claim_C6_job_lifecycle (oc : JobOutcome) :
    statusMonotone (ReActTool.background_run_states oc) = true ∧
    (ReActTool.background_run_states oc).all jobFieldsOk = true ∧
    statusMonotone (WordwareMCP.background_create_page_states oc) = true ∧
    (WordwareMCP.background_create_page_states oc).all jobFieldsOk = true := by
  cases oc <;>
    simp [ReActTool.background_run_states, WordwareMCP.background_create_page_states,
      statusMonotone, legalStep, jobFieldsOk]

/-- When the arguments bind `inputs` to a mapping, notion_page
normalization yields exactly `title` and `body` with placeholder
defaults. -/
theorem notion_inputs_ok (inputs m : List (String × Json))
    (h : dictGet inputs "inputs" = some (.obj m)) :
    ReActTool.process_inputs "notion_page" inputs =
      .ok [("title", (dictGet m "title").getD (.str "example title")),
           ("body", (dictGet m "body").getD (.str "example body"))] := by
  simp [ReActTool.process_inputs, h]

/-- C2 (amended): when the dispatch arguments bind `inputs` to a mapping,
notion_page normalization yields exactly the keys `title` and `body`,
taken from that mapping with the literal placeholder defaults for absent
entries, and no fault.  (As stated the claim fails when the `inputs`
argument is absent or not a mapping, see the counterexample.) -/
theorem claim_C2_notion_normalization (inputs m : List (String × Json))
    (h : dictGet inputs "inputs" = some (.obj m)) :
    ReActTool.process_inputs "notion_page" inputs =
      .ok [("title", (dictGet m "title").getD (.str "example title")),
           ("body", (dictGet m "body").getD (.str "example body"))] :=
  notion_inputs_ok inputs m h

/-- C2 witness: a nested mapping carrying only `title` keeps it and
defaults `body`. -/
theorem claim_C2_notion_normalization_witness :
    dictGet [("inputs", Json.obj [("title", Json.str "T")])] "inputs" =
      some (.obj [("title", Json.str "T")]) ∧
    ReActTool.process_inputs "notion_page" [("inputs", Json.obj [("title", Json.str "T")])] =
      .ok [("title", Json.str "T"), ("body", Json.str "example body")] :=
  ⟨rfl, (claim_C2_notion_normalization [("inputs", Json.obj [("title", Json.str "T")])]
    [("title", Json.str "T")] rfl).trans rfl⟩

/-- C2 counterexample: a dispatch call for notion_page whose arguments
lack the nested `inputs` mapping does not get the placeholder defaults —
normalization raises `AttributeError` (`None.get`). -/
theorem claim_C2_counterexample :
    ReActTool.process_inputs "notion_page" [] = .error .attributeError := rfl

/-- C3: the refinement pass returns the initial result with the fixed
suffix appended exactly when the lowercased command contains
`"multi-step"` or the body text is longer than 100 characters; otherwise
it returns the initial result unchanged, or the fixed sentinel when the
initial result is absent or empty.  (On the appending branch an absent or
empty initial result contributes the empty string.) -/
theorem claim_C3_react_agent (cmd : String) (title : Json) (body : String) (init : Option String) :
    ReActTool.react_agent cmd title (.str body) (jsonOfOpt init) =
      .ok (.str (
        if strContainsSub (pyLower cmd) "multi-step" = true ∨ 100 < body.length then
          init.getD "" ++ " [Finalized after multi-step processing]"
        else if init.getD "" = "" then "No result from tool."
        else init.getD "")) := by
  unfold ReActTool.react_agent
  by_cases hc : strContainsSub (pyLower cmd) "multi-step" = true
  · cases init with
    | none => simp [hc, jsonOfOpt, Json.truthy]
    | some s =>
      by_cases hs : s = ""
      · subst hs; simp [hc, jsonOfOpt, Json.truthy]
      · simp [hc, jsonOfOpt, Json.truthy, hs]
  · by_cases hl : 100 < body.length
    · cases init with
      | none => simp [hc, hl, jsonOfOpt, Json.truthy, pyLen]
      | some s =>
        by_cases hs : s = ""
        · subst hs; simp [hc, hl, jsonOfOpt, Json.truthy, pyLen]
        · simp [hc, hl, jsonOfOpt, Json.truthy, pyLen, hs]
    · cases init with
      | none => simp [hc, hl, jsonOfOpt, Json.truthy, pyLen]
      | some s =>
        by_cases hs : s = ""
        · subst hs; simp [hc, hl, jsonOfOpt, Json.truthy, pyLen]
        · simp [hc, hl, jsonOfOpt, Json.truthy, pyLen, hs]

/-- The source's `_clean_title` computes exactly the claimed description
of the title cleaning. -/
theorem clean_title_eq_spec (t : String) : WordwareMCP.clean_title t = WordwareMCP.titleSpec t := by
  unfold WordwareMCP.clean_title WordwareMCP.titleSpec
  by_cases h : t = ""
  · subst h; rfl
  · simp [h]

/-- Right-stripping then dropping blank lines commutes with packaging the
character lists as strings. -/
theorem cleanLines_commute (ls : List (List Char)) :
    ((ls.map WordwareMCP.pyRstripList).filter (fun l => !l.isEmpty)).map String.mk =
    ((ls.map String.mk).map (fun l => String.mk (WordwareMCP.pyRstripList l.toList))).filter
      (fun l => !(l == "")) := by
  induction ls with
  | nil => rfl
  | cons x ls ih =>
    simp only [List.map_cons, List.filter_cons]
    by_cases hx : WordwareMCP.pyRstripList x = []
    · simp [hx, ih, String.ext_iff]
    · simp [hx, ih, String.ext_iff, List.isEmpty_iff]

/-- The source's `_clean_body` computes exactly the claimed description of
the body cleaning. -/
theorem clean_body_eq_spec (b : String) : WordwareMCP.clean_body b = WordwareMCP.bodySpec b := by
  unfold WordwareMCP.clean_body WordwareMCP.bodySpec
  by_cases h : b = ""
  · subst h; rfl
  · simp only [splitLines]
    rw [← cleanLines_commute, if_neg (show ¬((b == "") = true) by simp [h])]

/-- C10: the payload `make_request` sends carries, under `inputs`, the
caller's title with the characters `< > : " / \ | ? *` removed, stripped
of surrounding whitespace, truncated to at most 100 characters and
defaulted to `"Untitled"` when empty before or after cleaning, and the
caller's body with each line right-stripped and blank lines removed,
together with the version string. -/
theorem claim_C10_payload (title body version : String) :
    WordwareMCP.make_request_payload title body version =
      .obj [("inputs", .obj [("title", .str (WordwareMCP.titleSpec title)),
                             ("body", .str (WordwareMCP.bodySpec body))]),
            ("version", .str version)] := by
  unfold WordwareMCP.make_request_payload WordwareMCP.validate_and_clean_input
  rw [clean_title_eq_spec, clean_body_eq_spec]

/-- C8: a string template leaf with at least one placeholder whose key is
absent from the context renders to its original template text unchanged
(Python `format` raises `KeyError`, the handler returns the template), and
no fault reaches the caller — the renderer is a total function. -/
theorem claim_C8_render_missing_key (segs : List Seg) (ctx : List (String × Json)) (k : String)
    (hk : k ∈ segKeys segs) (habs : dictGet ctx k = none) :
    render_template (.str segs) ctx = .str (textOfSegs segs) := by
  have hall : ¬((segKeys segs).all (fun k => (dictGet ctx k).isSome) = true) := by
    intro hcontra
    have h2 := List.all_eq_true.mp hcontra k hk
    rw [habs] at h2
    exact absurd h2 (by simp)
  simp [render_template, render_str, hall]

/-- C8 witness: a greeting template with an unbound `name` placeholder
renders to its own text. -/
theorem claim_C8_render_missing_key_witness :
    "name" ∈ segKeys [Seg.lit "Hello ", Seg.hole "name"] ∧
    dictGet ([] : List (String × Json)) "name" = none ∧
    render_template (.str [Seg.lit "Hello ", Seg.hole "name"]) [] =
      .str (textOfSegs [Seg.lit "Hello ", Seg.hole "name"]) :=
  ⟨by simp [segKeys], rfl,
   claim_C8_render_missing_key [Seg.lit "Hello ", Seg.hole "name"] [] "name"
     (by simp [segKeys]) rfl⟩

mutual
/-- When every placeholder key of the template is bound in the context,
rendering agrees with the spec-worded substitution function. -/
theorem renderAgreeT : ∀ (t : Template) (ctx : List (String × Json)),
    (placeholders t).all (fun k => (dictGet ctx k).isSome) = true →
    render_template t ctx = renderSpecModel t ctx
  | .str segs, ctx, h => by
    simp only [placeholders] at h
    simp [render_template, renderSpecModel, render_str, h]
  | .dict kvs, ctx, h => by
    simp only [placeholders] at h
    simp [render_template, renderSpecModel, renderAgreeF kvs ctx h]
  | .list items, ctx, h => by
    simp only [placeholders] at h
    simp [render_template, renderSpecModel, renderAgreeI items ctx h]
  | .other _, _, _ => rfl

theorem renderAgreeF : ∀ (kvs : List (String × Template)) (ctx : List (String × Json)),
    (placeholdersFields kvs).all (fun k => (dictGet ctx k).isSome) = true →
    renderFields kvs ctx = renderSpecFields kvs ctx
  | [], _, _ => rfl
  | (k, v) :: rest, ctx, h => by
    simp only [placeholdersFields, List.all_append, Bool.and_eq_true] at h
    simp [renderFields, renderSpecFields, renderAgreeT v ctx h.1, renderAgreeF rest ctx h.2]

theorem renderAgreeI : ∀ (items : List Template) (ctx : List (String × Json)),
    (placeholdersItems items).all (fun k => (dictGet ctx k).isSome) = true →
    renderItems items ctx = renderSpecItems items ctx
  | [], _, _ => rfl
  | t :: rest, ctx, h => by
    simp only [placeholdersItems, List.all_append, Bool.and_eq_true] at h
    simp [renderItems, renderSpecItems, renderAgreeT t ctx h.1, renderAgreeI rest ctx h.2]
end

/-- C7: when every placeholder key occurring in the template is present in
the context, rendering replaces each placeholder with the string form of
the matching context value, preserving mapping keys, sequence order,
nesting and non-string leaves — the spec-worded substitution
`renderSpecModel` does exactly that by construction. -/
theorem claim_C7_render_complete (t : Template) (ctx : List (String × Json))
    (h : (placeholders t).all (fun k => (dictGet ctx k).isSome) = true) :
    render_template t ctx = renderSpecModel t ctx :=
  renderAgreeT t ctx h

/-- C7 witness: the notion_page payload template rendered over a context
binding both placeholders. -/
theorem claim_C7_render_complete_witness :
    (placeholders demoTemplate).all (fun k => (dictGet demoCtx k).isSome) = true ∧
    render_template demoTemplate demoCtx = renderSpecModel demoTemplate demoCtx :=
  ⟨rfl, claim_C7_render_complete demoTemplate demoCtx rfl⟩

/-- A run of characters that is entirely Python whitespace is consumed or
stopped by the JSON whitespace skipper at a vertical tab or form feed. -/
theorem skipWs_all_pySpace (cs : List Char) (h : cs.all isPySpace = true) :
    skipWs cs = [] ∨ (∃ rest, skipWs cs = Char.ofNat 11 :: rest ∨ skipWs cs = Char.ofNat 12 :: rest) := by
  induction cs with
  | nil => left; rfl
  | cons c cs ih =>
    simp only [List.all_cons, Bool.and_eq_true] at h
    by_cases hc : isJsonWs c = true
    · have : skipWs (c :: cs) = skipWs cs := by
        simp [skipWs, List.dropWhile_cons, hc]
      rw [this]
      exact ih h.2
    · have hstop : skipWs (c :: cs) = c :: cs := by
        simp only [skipWs, List.dropWhile_cons]
        rw [if_neg (by simpa using hc)]
      have h1 := h.1
      simp only [isPySpace, Bool.or_eq_true, beq_iff_eq] at h1
      right
      refine ⟨cs, ?_⟩
      rcases h1 with (hj | h11) | h12
      · exact absurd hj hc
      · left; rw [hstop, show c = Char.ofNat 11 from by rw [← Char.ofNat_toNat c, h11]]
      · right; rw [hstop, show c = Char.ofNat 12 from by rw [← Char.ofNat_toNat c, h12]]

/-- No JSON value can be decoded from pure whitespace. -/
theorem parseValue_all_space (fuel : Nat) (cs : List Char) (h : cs.all isPySpace = true) :
    parseValue fuel cs = none := by
  cases fuel with
  | zero => rfl
  | succ n =>
    rcases skipWs_all_pySpace cs h with hws | ⟨rest, hws | hws⟩ <;>
      simp [parseValue, hws, parseNum, listStartsWith, takeDigits, digitVal]

/-- A line that is entirely whitespace is not decodable as JSON. -/
theorem all_space_loads_none (l : String) (h : l.toList.all isPySpace = true) :
    json_loads l = none := by
  unfold json_loads
  rw [parseValue_all_space _ _ h]

/-- A line that decodes to the qualifying chunk object with nonempty text
output is taken by the scan. -/
theorem processLine_found (line x : String)
    (hl : json_loads line = some (chunkJson x)) (hx : x ≠ "") :
    processLine line = .found (.str x) := by
  have hb : line.toList.all isPySpace = false := by
    cases hba : line.toList.all isPySpace
    · rfl
    · rw [all_space_loads_none line hba] at hl
      exact absurd hl (by simp)
  unfold processLine
  rw [if_neg (show ¬(line.toList.all isPySpace = true) by rw [hb]; exact Bool.false_ne_true), hl]
  simp [chunkJson, dictGet, jsonEqStr, Json.truthy, bne, hx]

/-- Skipped lines at the front of the scan fall through. -/
theorem scanLines_skip_head (sentinel : String) (pre : List String) (l : String)
    (rest : List String) (hpre : pre.all (fun l => (processLine l).isSkip) = true) :
    scanLines sentinel (pre ++ l :: rest) = scanLines sentinel (l :: rest) := by
  induction pre with
  | nil => rfl
  | cons p pre ih =>
    simp only [List.all_cons, Bool.and_eq_true] at hpre
    have hskip : processLine p = .skip := by
      cases hp : processLine p <;> simp [hp, LineStep.isSkip] at hpre ⊢
    simp [scanLines, hskip, ih hpre.2]

/-- C5 (amended): when the response body splits into lines of which every
line before some line is skipped by the scan, and that line decodes to
`type: chunk / value.type: code / value.output: X` with nonempty text `X`,
the extractor returns `X` — the first qualifying line wins even when later
qualifying lines exist.  (As stated the claim fails: an earlier
non-qualifying line can abort the scan with `AttributeError` instead of
being passed over, see the counterexample.) -/
theorem claim_C5_first_match (text : String) (pre : List String) (line : String)
    (rest : List String) (x : String)
    (hsplit : splitLines text = pre ++ line :: rest)
    (hpre : pre.all (fun l => (processLine l).isSkip) = true)
    (hline : json_loads line = some (chunkJson x))
    (hx : x ≠ "") :
    ReActTool.process_response text = .ok (.str x) := by
  unfold ReActTool.process_response
  rw [hsplit, scanLines_skip_head _ _ _ _ hpre]
  simp [scanLines, processLine_found line x hline hx]

/-- C5 witness: a body of one undecodable line, a qualifying line with
output `"X"`, and a later qualifying line with output `"Y"` extracts
`"X"`. -/
theorem claim_C5_first_match_witness :
    splitLines ("notjson\n" ++ chunkLineX ++ "\n" ++ chunkLineY) =
      ["notjson"] ++ chunkLineX :: [chunkLineY] ∧
    json_loads chunkLineX = some (chunkJson "X") ∧
    ReActTool.process_response ("notjson\n" ++ chunkLineX ++ "\n" ++ chunkLineY) =
      .ok (.str "X") :=
  ⟨rfl, rfl,
   claim_C5_first_match ("notjson\n" ++ chunkLineX ++ "\n" ++ chunkLineY)
     ["notjson"] chunkLineX [chunkLineY] "X" rfl rfl rfl (by decide)⟩

/-- C5 counterexample: in the body `"5"` + newline + a qualifying line
with output `"X"`, the qualifying line is present and no earlier line
qualifies, yet the extractor raises `AttributeError` on the `"5"` line
instead of returning `"X"`. -/
theorem claim_C5_counterexample :
    processLine "5" = .fault .attributeError ∧
    processLine chunkLineX = .found (.str "X") ∧
    ReActTool.process_response ("5\n" ++ chunkLineX) = .error .attributeError :=
  ⟨rfl, rfl, rfl⟩

/-- A value satisfying `isStr` is some string. -/
theorem isStr_exists (v : Json) (h : v.isStr = true) : ∃ s, v = .str s := by
  cases v <;> simp [Json.isStr] at h ⊢

/-- A name that is none of the four configured tools is not in the
registry. -/
theorem registry_none (tool : String) (h1 : tool ≠ "notion_page") (h2 : tool ≠ "google_search")
    (h3 : tool ≠ "wikipedia_lookup") (h4 : tool ≠ "google_news") :
    dictGet dynamic_tools tool = none := by
  simp [dynamic_tools, TOOL_CONFIG, dictGet, Ne.symm h1, Ne.symm h2, Ne.symm h3, Ne.symm h4]

/-- Every tool name is either outside the registry or one of the four
configured names. -/
theorem registry_cases (tool : String) :
    dictGet dynamic_tools tool = none ∨ tool = "notion_page" ∨ tool = "google_search" ∨
      tool = "wikipedia_lookup" ∨ tool = "google_news" := by
  by_cases h1 : tool = "notion_page"
  · exact Or.inr (Or.inl h1)
  by_cases h2 : tool = "google_search"
  · exact Or.inr (Or.inr (Or.inl h2))
  by_cases h3 : tool = "wikipedia_lookup"
  · exact Or.inr (Or.inr (Or.inr (Or.inl h3)))
  by_cases h4 : tool = "google_news"
  · exact Or.inr (Or.inr (Or.inr (Or.inr h4)))
  exact Or.inl (registry_none tool h1 h2 h3 h4)

/-- Through a text-only network environment every tool run yields a
string. -/
theorem tool_run_text (net : Net) (hnet : netTextOnly net) (cfg : ToolConfig)
    (kwargs : List (String × Json)) :
    ∃ s, (ReActTool.tool_run net cfg kwargs).1 = .str s :=
  isStr_exists _ (hnet cfg.api_url (render_template cfg.payload_template kwargs))

/-- A processed-input dict of exactly `title` and `body` binds the
`react_agent` keywords. -/
theorem bindReact_pair (t b : Json) :
    ReActTool.bindReactKwargs [("title", t), ("body", b)] = some (t, b) := rfl

/-- On the refinement branch with a string initial result, `react_agent`
returns a string. -/
theorem react_refine_ok (cmd : String) (t b : Json) (s : String)
    (hc : strContainsSub (pyLower cmd) "multi-step" = true) :
    ∃ r, ReActTool.react_agent cmd t b (.str s) = .ok (.str r) := by
  unfold ReActTool.react_agent
  by_cases hs : s = ""
  · subst hs
    exact ⟨"" ++ " [Finalized after multi-step processing]", by simp [hc, Json.truthy]⟩
  · exact ⟨s ++ " [Finalized after multi-step processing]", by simp [hc, Json.truthy, hs]⟩

/-- Evaluation of the dispatch pipeline once the registry lookup and the
argument normalization are settled. -/
theorem handle_eval (net : Net) (cmd tool : String) (cfg : ToolConfig)
    (processed inputs : List (String × Json))
    (hreg : dictGet dynamic_tools tool = some cfg)
    (hproc : ReActTool.process_inputs tool inputs = .ok processed) :
    ReActTool.handle_user_request net cmd tool inputs =
      (if strContainsSub (pyLower cmd) "multi-step" then
        match ReActTool.bindReactKwargs processed with
        | none => (.error .typeError, (ReActTool.tool_run net cfg processed).2)
        | some (t, b) =>
          match ReActTool.react_agent cmd t b (ReActTool.tool_run net cfg processed).1 with
          | .ok f => (.ok f, (ReActTool.tool_run net cfg processed).2)
          | .error e => (.error e, (ReActTool.tool_run net cfg processed).2)
      else (.ok (ReActTool.tool_run net cfg processed).1, (ReActTool.tool_run net cfg processed).2)) := by
  unfold ReActTool.handle_user_request
  rw [hreg, hproc]

/-- The dispatch pipeline on the delegation branch, once the keyword
binding for `react_agent` succeeds. -/
theorem handle_eval_bind (net : Net) (cmd tool : String) (cfg : ToolConfig)
    (processed inputs : List (String × Json)) (t b : Json)
    (hreg : dictGet dynamic_tools tool = some cfg)
    (hproc : ReActTool.process_inputs tool inputs = .ok processed)
    (hbind : ReActTool.bindReactKwargs processed = some (t, b))
    (hc : strContainsSub (pyLower cmd) "multi-step" = true) :
    ReActTool.handle_user_request net cmd tool inputs =
      (match ReActTool.react_agent cmd t b (ReActTool.tool_run net cfg processed).1 with
       | .ok f => (.ok f, (ReActTool.tool_run net cfg processed).2)
       | .error e => (.error e, (ReActTool.tool_run net cfg processed).2)) := by
  rw [handle_eval net cmd tool cfg processed inputs hreg hproc, if_pos hc, hbind]

/-- C1 (amended): dispatch returns an ordinary string to the caller
whenever (i) the tool is unknown (fixed message), or the tool is known
and (ii) for `notion_page` the arguments bind `inputs` to a mapping,
(iii) a command containing `"multi-step"` is only dispatched to
`notion_page`, and (iv) the network environment yields text results
(which holds e.g. whenever the remote answers non-200, or a 200 body with
a text output chunk).  (As stated the claim fails: normalization faults
for `notion_page` without a nested `inputs` mapping propagate, see the
counterexample, as do keyword-binding faults when a multi-step command
names a search tool.) -/
theorem claim_C1_dispatch_total (net : Net) (cmd tool : String) (inputs : List (String × Json))
    (hnet : netTextOnly net)
    (hnotion : tool = "notion_page" → ∃ m, dictGet inputs "inputs" = some (.obj m))
    (hms : strContainsSub (pyLower cmd) "multi-step" = true →
           tool = "notion_page" ∨ dictGet dynamic_tools tool = none) :
    ∃ s, (ReActTool.handle_user_request net cmd tool inputs).1 = .ok (.str s) := by
  rcases registry_cases tool with hreg | htool | htool | htool | htool
  · exact ⟨ReActTool.tool_not_available_msg tool, by simp [ReActTool.handle_user_request, hreg]⟩
  · subst htool
    obtain ⟨m, hm⟩ := hnotion rfl
    obtain ⟨s0, hs0⟩ := tool_run_text net hnet notionConfig
      [("title", (dictGet m "title").getD (.str "example title")),
       ("body", (dictGet m "body").getD (.str "example body"))]
    by_cases hc : strContainsSub (pyLower cmd) "multi-step" = true
    · rw [handle_eval_bind net cmd "notion_page" notionConfig _ inputs
        ((dictGet m "title").getD (Json.str "example title"))
        ((dictGet m "body").getD (Json.str "example body"))
        rfl (notion_inputs_ok inputs m hm) (bindReact_pair _ _) hc, hs0]
      obtain ⟨r, hr⟩ := react_refine_ok cmd
        ((dictGet m "title").getD (Json.str "example title"))
        ((dictGet m "body").getD (Json.str "example body")) s0 hc
      rw [hr]
      exact ⟨r, rfl⟩
    · rw [handle_eval net cmd "notion_page" notionConfig _ inputs rfl
        (notion_inputs_ok inputs m hm), if_neg hc]
      exact ⟨s0, by rw [hs0]⟩
  · subst htool
    have hnc : ¬(strContainsSub (pyLower cmd) "multi-step" = true) := by
      intro hcont
      rcases hms hcont with h' | h'
      · exact absurd h' (by decide)
      · rw [show dictGet dynamic_tools "google_search" = some googleSearchConfig from rfl] at h'
        exact absurd h' (by simp)
    obtain ⟨processed, hq⟩ : ∃ p, ReActTool.process_inputs "google_search" inputs = .ok p := ⟨_, rfl⟩
    rw [handle_eval net cmd "google_search" googleSearchConfig processed inputs rfl hq, if_neg hnc]
    obtain ⟨s0, hs0⟩ := tool_run_text net hnet googleSearchConfig processed
    exact ⟨s0, by rw [hs0]⟩
  · subst htool
    have hnc : ¬(strContainsSub (pyLower cmd) "multi-step" = true) := by
      intro hcont
      rcases hms hcont with h' | h'
      · exact absurd h' (by decide)
      · rw [show dictGet dynamic_tools "wikipedia_lookup" = some wikipediaConfig from rfl] at h'
        exact absurd h' (by simp)
    obtain ⟨processed, hq⟩ : ∃ p, ReActTool.process_inputs "wikipedia_lookup" inputs = .ok p := ⟨_, rfl⟩
    rw [handle_eval net cmd "wikipedia_lookup" wikipediaConfig processed inputs rfl hq, if_neg hnc]
    obtain ⟨s0, hs0⟩ := tool_run_text net hnet wikipediaConfig processed
    exact ⟨s0, by rw [hs0]⟩
  · subst htool
    have hnc : ¬(strContainsSub (pyLower cmd) "multi-step" = true) := by
      intro hcont
      rcases hms hcont with h' | h'
      · exact absurd h' (by decide)
      · rw [show dictGet dynamic_tools "google_news" = some googleNewsConfig from rfl] at h'
        exact absurd h' (by simp)
    obtain ⟨processed, hq⟩ : ∃ p, ReActTool.process_inputs "google_news" inputs = .ok p := ⟨_, rfl⟩
    rw [handle_eval net cmd "google_news" googleNewsConfig processed inputs rfl hq, if_neg hnc]
    obtain ⟨s0, hs0⟩ := tool_run_text net hnet googleNewsConfig processed
    exact ⟨s0, by rw [hs0]⟩

/-- C1 witness: a non-multi-step search dispatch through an environment
that always answers 500 returns an error string normally. -/
theorem claim_C1_dispatch_total_witness :
    netTextOnly netDown ∧
    (∃ s, (ReActTool.handle_user_request netDown "find cats" "google_search"
      [("q", Json.str "cats")]).1 = .ok (.str s)) :=
  ⟨fun _ _ => rfl,
   claim_C1_dispatch_total netDown "find cats" "google_search" [("q", Json.str "cats")]
     (fun _ _ => rfl)
     (fun h => absurd h (by decide))
     (fun h => absurd h (by decide))⟩

/-- C1 counterexample: a dispatch call for `notion_page` whose arguments
lack the nested `inputs` mapping raises `AttributeError` out of
`handle_user_request` before any network call, instead of returning a
string. -/
theorem claim_C1_counterexample :
    ReActTool.handle_user_request netOk200 "hi" "notion_page" [] = (.error .attributeError, []) := rfl
